import Mathlib

/-!
Verification of the two operational scripts of the hancoin-cairo repository
(`scripts/deploy_token.py` and `scripts/interaction_examples.py`) against their
natural-language specification.

The scripts are straight-line asynchronous orchestration code: each issues a
fixed sequence of remote operations (contract-binding resolutions, read-only
queries, state-changing invocations, and wait-for-acceptance polls) against a
blockchain network, interleaved with stdout reporting.  We embed each workflow
as the list of network-visible events it emits, in program order (the Python
code awaits every operation before the next statement, so program order is
the only order).  Stdout formatting of numeric values is embedded separately
by functions modelling the exact Python format specifiers used; script-level
control flow (environment checks, file-existence checks, try/except blocks)
is embedded as explicit functions on an environment record.
-/

namespace Hancoin

/-- Chain identifier enumeration used by both scripts
(`starknet_py.net.models.StarknetChainId`). -/
inductive StarknetChainId where
  | TESTNET
  | MAINNET
deriving DecidableEq, Repr

/-- One argument of a remote contract call: an address (hex string in the
scripts), an integer amount / id / duration, or a short string key such as a
currency code. -/
inductive Arg where
  | addr (a : String)
  | num (n : Nat)
  | str (s : String)
deriving DecidableEq, Repr

/-- A network-visible event emitted by a workflow, in program order:
`resolve` is a `Contract.from_address` binding resolution, `query` a read-only
`.call(...)`, `invoke` a state-changing `.invoke_v1(...)` submission, and
`waitAccept` the corresponding `.wait_for_acceptance()` (keyed here by the
name of the invoked function, which is unique within each workflow). -/
inductive Ev where
  | resolve (name : String)
  | query (fn : String) (args : List Arg)
  | invoke (fn : String) (args : List Arg)
  | waitAccept (fn : String)
deriving DecidableEq, Repr

/-! ### Constants appearing in the scripts -/

/-- `interaction_examples.py` line 96 / `deploy_token.py` line 143. -/
def test_recipient : String :=
  "0x1234567890123456789012345678901234567890123456789012345678901234"

/-- `interaction_examples.py` line 175. -/
def seller_address : String :=
  "0x5678901234567890123456789012345678901234567890123456789012345678"

/-- `transfer_amount = 1000 * 10**18` (`interaction_examples.py` line 97). -/
def transfer_amount : Nat := 1000 * 10 ^ 18

/-- `loan_amount = 5000 * 10**18` (line 128). -/
def loan_amount : Nat := 5000 * 10 ^ 18

/-- `duration = 86400 * 90` (line 129). -/
def loan_duration : Nat := 86400 * 90

/-- `collateral_amount = 7500 * 10**18` (line 130). -/
def collateral_amount : Nat := 7500 * 10 ^ 18

/-- `escrow_amount = 25000 * 10**18` (line 176). -/
def escrow_amount : Nat := 25000 * 10 ^ 18

/-- `property_id = int.from_bytes(b'PROP001', 'big')` (line 177): big-endian
fold of the byte string `PROP001`. -/
def property_id : Nat :=
  [0x50, 0x52, 0x4F, 0x50, 0x30, 0x30, 0x31].foldl (fun a b => a * 256 + b) 0

/-- `timeout_duration = 86400 * 30` (line 178). -/
def timeout_duration : Nat := 86400 * 30

/-- `swap_amount = 1000 * 10**18` (line 236). -/
def swap_amount : Nat := 1000 * 10 ^ 18

/-- `fiat_amount = 10000` ($100.00 in cents, line 288). -/
def fiat_amount : Nat := 10000

/-- `card_last_four = 1234` (line 299). -/
def card_last_four : Nat := 1234

/-- `mint_amount = 1000 * 10**18` (`deploy_token.py` line 144). -/
def mint_amount : Nat := 1000 * 10 ^ 18

/-- `new_gas_rate = 2000000000000000` (`deploy_token.py` line 162). -/
def new_gas_rate : Nat := 2000000000000000

/-! ### Network-event traces of the interaction groups

Each is the sequence of remote operations the method performs on its happy
path, in program order (`interaction_examples.py`). -/

/-- `HomebaseInteraction.token_interactions` (lines 71-112), parameterised by
the account address read from `ACCOUNT_ADDRESS`. -/
def token_interactions (owner : String) : List Ev :=
  [ .query "name" [],
    .query "symbol" [],
    .query "total_supply" [],
    .query "total_supply_formatted" [],
    .query "balance_of" [.addr owner],
    .query "is_paymaster_enabled" [],
    .query "get_gas_fee_rate" [],
    .invoke "transfer" [.addr test_recipient, .num transfer_amount],
    .waitAccept "transfer",
    .query "balance_of" [.addr test_recipient] ]

/-- `HomebaseInteraction.loan_interactions` (lines 114-159).  The two trailing
queries are the read-back inside the `try` block (lines 146-156). -/
def loan_interactions : List Ev :=
  [ .query "get_total_loans_issued" [],
    .query "get_total_amount_repaid" [],
    .query "get_collateral_ratio" [],
    .invoke "request_loan" [.num loan_amount, .num loan_duration, .num collateral_amount],
    .waitAccept "request_loan",
    .query "get_loan" [.num 1],
    .query "calculate_total_due" [.num 1] ]

/-- `HomebaseInteraction.escrow_interactions` (lines 161-209). -/
def escrow_interactions : List Ev :=
  [ .query "get_total_escrowed" [],
    .query "get_total_fees_collected" [],
    .query "get_escrow_fee_rate" [],
    .invoke "create_escrow"
      [.addr seller_address, .num escrow_amount, .num property_id, .num timeout_duration],
    .waitAccept "create_escrow",
    .query "get_escrow_status" [.num 1],
    .query "get_escrow_order" [.num 1] ]

/-- `HomebaseInteraction.swap_interactions` (lines 211-262), parameterised by
the token address read from the address book and by the USDT address the
chain returns for `get_supported_token('USDT')`: the quote query is only
issued when that response is non-zero (line 238).  The swap execution itself
is commented out in the source, so this group submits no invocation. -/
def swap_interactions (tokenAddr : String) (usdt : Nat) : List Ev :=
  [ .query "get_total_swaps" [],
    .query "get_total_volume" [],
    .query "get_swap_fee" [],
    .query "get_supported_token" [.str "USDT"],
    .query "get_supported_token" [.str "USDC"],
    .query "get_supported_token" [.str "WETH"] ] ++
  (if usdt = 0 then []
   else [ .query "get_swap_quote" [.addr tokenAddr, .num usdt, .num swap_amount] ])

/-- `HomebaseInteraction.credit_card_interactions` (lines 264-325). -/
def credit_card_interactions : List Ev :=
  [ .query "get_total_payments" [],
    .query "get_total_fiat_processed" [],
    .query "get_total_hnxz_issued" [],
    .query "get_processing_fee_rate" [],
    .query "get_exchange_rate" [.str "USD"],
    .query "get_exchange_rate" [.str "EUR"],
    .query "calculate_hnxz_amount" [.num fiat_amount, .str "USD"],
    .invoke "initiate_payment" [.num fiat_amount, .str "USD", .num card_last_four],
    .waitAccept "initiate_payment",
    .query "get_payment_status" [.num 1],
    .query "get_payment" [.num 1] ]

/-- Constructor arguments of the deployment transaction:
`constructor_args=[account_address]` (`deploy_token.py` line 63). -/
def deploy_constructor_args (owner : String) : List Arg := [.addr owner]

/-- Network events of `deploy_token` after the configuration checks
(`deploy_token.py` lines 59-98): deployment submission, acceptance wait, then
the verification queries on the freshly deployed binding. -/
def deploy_net_trace (owner : String) : List Ev :=
  [ .invoke "deploy_contract" (deploy_constructor_args owner),
    .waitAccept "deploy_contract",
    .query "name" [],
    .query "symbol" [],
    .query "decimals" [],
    .query "total_supply" [],
    .query "balance_of" [.addr owner],
    .query "is_paymaster_enabled" [],
    .query "get_gas_fee_rate" [] ]

/-- Network events of `test_token_functions` (`deploy_token.py` lines
134-176): a mint followed by its acceptance wait and a balance read, then a
gas-rate update followed by its acceptance wait and a rate read. -/
def test_token_functions : List Ev :=
  [ .invoke "mint" [.addr test_recipient, .num mint_amount],
    .waitAccept "mint",
    .query "balance_of" [.addr test_recipient],
    .invoke "set_gas_fee_rate" [.num new_gas_rate],
    .waitAccept "set_gas_fee_rate",
    .query "get_gas_fee_rate" [] ]

/-- `a` occurs strictly before `b` in the trace `t` (at explicit positions). -/
def seqOk (t : List Ev) (a b : Ev) : Prop :=
  ∃ i j, i < j ∧ t.get? i = some a ∧ t.get? j = some b

/-- C1: In every workflow, a state-changing invocation is followed by its
wait-for-acceptance, and the wait occurs before every subsequent read that
depends on the invocation's effect: the transfer's wait precedes the
recipient `balance_of`, the loan request's wait precedes `get_loan` and
`calculate_total_due`, the escrow creation's wait precedes the two escrow
read-backs, the payment initiation's wait precedes the two payment
read-backs, the deployment's wait precedes every query on the deployed
binding, and in `test_token_functions` each of the two invocations' waits
precedes its dependent read. -/
theorem c1_wait_before_dependent_reads (owner : String) :
    (seqOk (token_interactions owner)
      (.invoke "transfer" [.addr test_recipient, .num transfer_amount])
      (.waitAccept "transfer") ∧
     seqOk (token_interactions owner)
      (.waitAccept "transfer") (.query "balance_of" [.addr test_recipient])) ∧
    (seqOk loan_interactions
      (.invoke "request_loan" [.num loan_amount, .num loan_duration, .num collateral_amount])
      (.waitAccept "request_loan") ∧
     seqOk loan_interactions (.waitAccept "request_loan") (.query "get_loan" [.num 1]) ∧
     seqOk loan_interactions (.waitAccept "request_loan") (.query "calculate_total_due" [.num 1])) ∧
    (seqOk escrow_interactions
      (.invoke "create_escrow"
        [.addr seller_address, .num escrow_amount, .num property_id, .num timeout_duration])
      (.waitAccept "create_escrow") ∧
     seqOk escrow_interactions (.waitAccept "create_escrow") (.query "get_escrow_status" [.num 1]) ∧
     seqOk escrow_interactions (.waitAccept "create_escrow") (.query "get_escrow_order" [.num 1])) ∧
    (seqOk credit_card_interactions
      (.invoke "initiate_payment" [.num fiat_amount, .str "USD", .num card_last_four])
      (.waitAccept "initiate_payment") ∧
     seqOk credit_card_interactions
      (.waitAccept "initiate_payment") (.query "get_payment_status" [.num 1]) ∧
     seqOk credit_card_interactions
      (.waitAccept "initiate_payment") (.query "get_payment" [.num 1])) ∧
    (seqOk (deploy_net_trace owner)
      (.invoke "deploy_contract" (deploy_constructor_args owner))
      (.waitAccept "deploy_contract") ∧
     ∀ e ∈ (deploy_net_trace owner).drop 2, seqOk (deploy_net_trace owner) (.waitAccept "deploy_contract") e) ∧
    (seqOk test_token_functions
      (.invoke "mint" [.addr test_recipient, .num mint_amount]) (.waitAccept "mint") ∧
     seqOk test_token_functions (.waitAccept "mint") (.query "balance_of" [.addr test_recipient]) ∧
     seqOk test_token_functions
      (.invoke "set_gas_fee_rate" [.num new_gas_rate]) (.waitAccept "set_gas_fee_rate") ∧
     seqOk test_token_functions (.waitAccept "set_gas_fee_rate") (.query "get_gas_fee_rate" [])) := by
  refine ⟨⟨⟨7, 8, by omega, rfl, rfl⟩, ⟨8, 9, by omega, rfl, rfl⟩⟩,
          ⟨⟨3, 4, by omega, rfl, rfl⟩, ⟨4, 5, by omega, rfl, rfl⟩, ⟨4, 6, by omega, rfl, rfl⟩⟩,
          ⟨⟨3, 4, by omega, rfl, rfl⟩, ⟨4, 5, by omega, rfl, rfl⟩, ⟨4, 6, by omega, rfl, rfl⟩⟩,
          ⟨⟨7, 8, by omega, rfl, rfl⟩, ⟨8, 9, by omega, rfl, rfl⟩, ⟨8, 10, by omega, rfl, rfl⟩⟩,
          ⟨⟨0, 1, by omega, rfl, rfl⟩, ?_⟩,
          ⟨⟨0, 1, by omega, rfl, rfl⟩, ⟨1, 2, by omega, rfl, rfl⟩,
           ⟨3, 4, by omega, rfl, rfl⟩, ⟨4, 5, by omega, rfl, rfl⟩⟩⟩
  intro e he
  simp only [deploy_net_trace, deploy_constructor_args, List.drop, List.mem_cons,
    List.not_mem_nil, or_false] at he
  rcases he with h | h | h | h | h | h | h
  · exact ⟨1, 2, by omega, rfl, by simp [deploy_net_trace, h]⟩
  · exact ⟨1, 3, by omega, rfl, by simp [deploy_net_trace, h]⟩
  · exact ⟨1, 4, by omega, rfl, by simp [deploy_net_trace, h]⟩
  · exact ⟨1, 5, by omega, rfl, by simp [deploy_net_trace, h]⟩
  · exact ⟨1, 6, by omega, rfl, by simp [deploy_net_trace, h]⟩
  · exact ⟨1, 7, by omega, rfl, by simp [deploy_net_trace, h]⟩
  · exact ⟨1, 8, by omega, rfl, by simp [deploy_net_trace, h]⟩

/-- C1, witnessed at a concrete deployer address: the deployment's acceptance
wait precedes the `name` query issued through the deployed binding. -/
theorem c1_witness :
    seqOk (deploy_net_trace "0xdeployer") (.waitAccept "deploy_contract") (.query "name" []) := by
  have h := c1_wait_before_dependent_reads "0xdeployer"
  exact h.2.2.2.2.1.2 (.query "name" []) (by decide)

/-! ### Network / chain-identifier resolution (claim C2)

`deploy_token.py` resolves the endpoint by the dictionary lookup
`NETWORK_URL[network]` (lines 17-20 and 37): a Python dict lookup raises
`KeyError` on an unknown key, modelled here as `none`.  The chain identifier
(line 39) and the interaction script's endpoint and chain resolution
(`interaction_examples.py` lines 27-33) are conditional expressions
`... if network == 'testnet' else ...` which never fail. -/

/-- `NETWORK_URL` dict of `deploy_token.py` lines 17-20, as a lookup:
`none` models the `KeyError` an absent key raises. -/
def NETWORK_URL (network : String) : Option String :=
  if network = "testnet" then some "https://alpha4.starknet.io"
  else if network = "mainnet" then some "https://alpha-mainnet.starknet.io"
  else none

/-- `chain_id = StarknetChainId.TESTNET if network == 'testnet' else
StarknetChainId.MAINNET` (`deploy_token.py` line 39). -/
def deploy_chain_id (network : String) : StarknetChainId :=
  if network = "testnet" then .TESTNET else .MAINNET

/-- Session resolution of `deploy_token.py` lines 37-46: the URL lookup at
line 37 executes first, so its `KeyError` (`none`) propagates before the
chain identifier at line 39 is computed. -/
def deploy_session (network : String) : Option (String × StarknetChainId) :=
  (NETWORK_URL network).map (fun url => (url, deploy_chain_id network))

/-- `node_url='https://alpha4.starknet.io' if self.network == 'testnet' else
'https://alpha-mainnet.starknet.io'` (`interaction_examples.py` lines 27-30). -/
def interaction_node_url (network : String) : String :=
  if network = "testnet" then "https://alpha4.starknet.io"
  else "https://alpha-mainnet.starknet.io"

/-- `chain_id = StarknetChainId.TESTNET if self.network == 'testnet' else
StarknetChainId.MAINNET` (`interaction_examples.py` line 33). -/
def interaction_chain_id (network : String) : StarknetChainId :=
  if network = "testnet" then .TESTNET else .MAINNET

/-- C2 counterexample: for the unrecognized network selector `"goerli"` the
interaction script's session builder does not fail fast: it silently resolves
the mainnet endpoint URL and the MAINNET chain identifier, contradicting the
claim that every script fails fast on any selector other than `"testnet"` and
`"mainnet"`. -/
theorem c2_counterexample :
    interaction_node_url "goerli" = "https://alpha-mainnet.starknet.io" ∧
    interaction_chain_id "goerli" = .MAINNET := by
  constructor <;> rfl

/-- C2 amended: both scripts resolve `"testnet"` and `"mainnet"` to the fixed
two-entry table of endpoint URL and chain identifier; for every other
selector the deploy script fails fast (the `NETWORK_URL` dict lookup raises
`KeyError` before the session is built), but the interaction script silently
defaults to the mainnet URL and MAINNET chain identifier. -/
theorem c2_amended (n : String) (h1 : n ≠ "testnet") (h2 : n ≠ "mainnet") :
    deploy_session "testnet" = some ("https://alpha4.starknet.io", .TESTNET) ∧
    deploy_session "mainnet" = some ("https://alpha-mainnet.starknet.io", .MAINNET) ∧
    interaction_node_url "testnet" = "https://alpha4.starknet.io" ∧
    interaction_node_url "mainnet" = "https://alpha-mainnet.starknet.io" ∧
    interaction_chain_id "testnet" = .TESTNET ∧
    interaction_chain_id "mainnet" = .MAINNET ∧
    deploy_session n = none ∧
    interaction_node_url n = "https://alpha-mainnet.starknet.io" ∧
    interaction_chain_id n = .MAINNET := by
  refine ⟨rfl, rfl, rfl, rfl, rfl, rfl, ?_, ?_, ?_⟩ <;>
    simp [deploy_session, NETWORK_URL, interaction_node_url, interaction_chain_id, h1, h2]

/-- C2 amended, witnessed at the concrete selector `"goerli"`. -/
theorem c2_amended_witness :
    deploy_session "goerli" = none ∧
    interaction_node_url "goerli" = "https://alpha-mainnet.starknet.io" := by
  have h := c2_amended "goerli" (by decide) (by decide)
  exact ⟨h.2.2.2.2.2.2.1, h.2.2.2.2.2.2.2.1⟩

/-! ### Claim C9: deployment constructor arguments and ordering -/

/-- C9: the deployment transaction is submitted with a constructor argument
list of exactly one element, the deployer's own account address
(`constructor_args=[account_address]`, `deploy_token.py` line 63), and the
acceptance wait occurs after the submission and before every query issued
through the deployed binding. -/
theorem c9_deploy_constructor_and_wait (owner : String) :
    deploy_constructor_args owner = [.addr owner] ∧
    (deploy_constructor_args owner).length = 1 ∧
    seqOk (deploy_net_trace owner)
      (.invoke "deploy_contract" [.addr owner]) (.waitAccept "deploy_contract") ∧
    seqOk (deploy_net_trace owner) (.waitAccept "deploy_contract") (.query "name" []) ∧
    seqOk (deploy_net_trace owner) (.waitAccept "deploy_contract") (.query "symbol" []) ∧
    seqOk (deploy_net_trace owner) (.waitAccept "deploy_contract") (.query "decimals" []) ∧
    seqOk (deploy_net_trace owner) (.waitAccept "deploy_contract") (.query "total_supply" []) ∧
    seqOk (deploy_net_trace owner)
      (.waitAccept "deploy_contract") (.query "balance_of" [.addr owner]) ∧
    seqOk (deploy_net_trace owner)
      (.waitAccept "deploy_contract") (.query "is_paymaster_enabled" []) ∧
    seqOk (deploy_net_trace owner)
      (.waitAccept "deploy_contract") (.query "get_gas_fee_rate" []) :=
  ⟨rfl, rfl,
   ⟨0, 1, by omega, rfl, rfl⟩,
   ⟨1, 2, by omega, rfl, rfl⟩,
   ⟨1, 3, by omega, rfl, rfl⟩,
   ⟨1, 4, by omega, rfl, rfl⟩,
   ⟨1, 5, by omega, rfl, rfl⟩,
   ⟨1, 6, by omega, rfl, rfl⟩,
   ⟨1, 7, by omega, rfl, rfl⟩,
   ⟨1, 8, by omega, rfl, rfl⟩⟩

/-! ### Claim C7: raw unscaled amounts in every remote call -/

/-- Positions of the amount arguments of the remote calls named by the spec
(argument lists as written at the call sites in `interaction_examples.py`):
`transfer(to, amount)`, `request_loan(amount, duration, collateral)`,
`create_escrow(seller, amount, property, timeout)`,
`get_swap_quote(from, to, amount)`, `initiate_payment(fiat, currency, card)`,
`calculate_hnxz_amount(fiat, currency)`. -/
def amount_positions (fn : String) : List Nat :=
  if fn = "transfer" then [1]
  else if fn = "request_loan" then [0, 2]
  else if fn = "create_escrow" then [1]
  else if fn = "get_swap_quote" then [2]
  else if fn = "initiate_payment" then [0]
  else if fn = "calculate_hnxz_amount" then [0]
  else []

/-- The numeric payload of an argument, when it has one. -/
def argNum : Arg → Option Nat
  | .num n => some n
  | _ => none

/-- Function name and argument list of a remote call event. -/
def call_args : Ev → Option (String × List Arg)
  | .query fn args => some (fn, args)
  | .invoke fn args => some (fn, args)
  | _ => none

/-- All amount arguments passed to remote calls in a trace, each paired with
the name of the called function, in trace order. -/
def amount_args (t : List Ev) : List (String × Nat) :=
  t.foldr
    (fun e acc =>
      match call_args e with
      | some (fn, args) =>
          (((amount_positions fn).filterMap (fun i => (args.get? i).bind argNum)).map
            (fun n => (fn, n))) ++ acc
      | none => acc) []

/-- C7: every amount argument passed to a remote call (`transfer`,
`request_loan`, `create_escrow`, `get_swap_quote`, `initiate_payment`,
`calculate_hnxz_amount`) is the raw unscaled integer (`k * 10^18` for token
amounts, whole cents for fiat); the divide-by-scale values (1000, 5000, …,
100) never appear as call arguments — division by the scale happens only in
the stdout formatting, which is modelled separately and feeds no further
call. -/
theorem c7_raw_amounts_in_calls (owner tokenAddr : String) (usdt : Nat) :
    amount_args (token_interactions owner) = [("transfer", 1000 * 10 ^ 18)] ∧
    amount_args loan_interactions =
      [("request_loan", 5000 * 10 ^ 18), ("request_loan", 7500 * 10 ^ 18)] ∧
    amount_args escrow_interactions = [("create_escrow", 25000 * 10 ^ 18)] ∧
    amount_args (swap_interactions tokenAddr usdt) =
      (if usdt = 0 then [] else [("get_swap_quote", 1000 * 10 ^ 18)]) ∧
    amount_args credit_card_interactions =
      [("calculate_hnxz_amount", 10000), ("initiate_payment", 10000)] := by
  refine ⟨rfl, rfl, rfl, ?_, rfl⟩
  by_cases h : usdt = 0 <;>
    simp [swap_interactions, amount_args, amount_positions, h, argNum, call_args, swap_amount]

/-! ### Display formatting (claim C8)

The scripts print scaled amounts with three Python format shapes:
`f"{x:,.0f}"` (thousands-grouped, no decimals — `deploy_token.py` lines
90-91, 112), `f"{x:,.2f}"` (thousands-grouped, two decimals —
`interaction_examples.py` lines 86, 123-124, 275-276, …), and a plain
`f"{x}"` on the float quotient (`interaction_examples.py` lines 99, 132-133,
150-151, 296, 301, 320-321, …).  All quotients these sites are evaluated at
in the claims divide exactly and are far below 2^53, so Python's float
arithmetic is exact there and the functions below reproduce the printed
strings for such inputs. -/

/-- Insert a thousands separator into a digit list given least-significant
first, producing the grouped digits least-significant first. -/
def commaRev : List Char → Nat → List Char
  | [], _ => []
  | c :: cs, i =>
    if i % 3 == 0 && i != 0 then ',' :: c :: commaRev cs (i + 1)
    else c :: commaRev cs (i + 1)

/-- Decimal rendering of `n` with thousands separators, e.g. `1000 ↦ "1,000"`. -/
def commaGroup (n : Nat) : String :=
  String.mk ((commaRev (toString n).data.reverse 0).reverse)

/-- Models Python `f"{x:,.0f}"` for an integral float `x = n`: thousands
separators, no decimal point (the shape at `deploy_token.py` lines 90-91). -/
def pyFormatComma0 (n : Nat) : String := commaGroup n

/-- Two-digit zero-padded rendering of a cents remainder. -/
def pad2 (m : Nat) : String :=
  if m < 10 then "0" ++ toString m else toString m

/-- Models Python `f"{c/100:,.2f}"` applied to a whole number of cents `c`
(the shape at `interaction_examples.py` line 275): thousands-grouped units,
a decimal point, and exactly two decimals. -/
def pyFormatComma2Cents (c : Nat) : String :=
  commaGroup (c / 100) ++ "." ++ pad2 (c % 100)

/-- Models Python `f"{num/den}"` — `str` of the float quotient — when `den`
divides `num` exactly (the shape at `interaction_examples.py` lines 99, 301,
320-321): Python renders an integral float with a trailing `.0`. -/
def pyPlainDiv (num den : Nat) : String := toString (num / den) ++ ".0"

/-- C8 counterexample: the program's display formatting of a raw token amount
of `1000 * 10^18` with scale `10^18` yields `"1,000"` at the
thousands-grouped sites (and `"1000.0"` at the plain f-string sites), never
`"1000"`; and at the cited payment-display sites
(`interaction_examples.py` lines 301, 320) a fiat amount of 10000 cents is
printed as `"100.0"`, not `"100.00"`. -/
theorem c8_counterexample :
    pyFormatComma0 (1000 * 10 ^ 18 / 10 ^ 18) = "1,000" ∧
    ("1,000" : String) ≠ "1000" ∧
    pyPlainDiv (1000 * 10 ^ 18) (10 ^ 18) = "1000.0" ∧
    pyPlainDiv 10000 100 = "100.0" ∧
    ("100.0" : String) ≠ "100.00" := by
  refine ⟨rfl, ?_, rfl, rfl, ?_⟩ <;> decide

/-- C8 amended: display formatting of a raw token amount of `1000 * 10^18`
with scale `10^18` yields `"1,000"` at the thousands-grouped zero-decimal
sites and `"1000.0"` at the plain f-string sites; display formatting of a
fiat amount of 10000 cents with scale 100 yields `"100.00"` at the
two-decimal site (line 275) but `"100.0"` at the plain payment-display
sites (lines 301, 320). -/
theorem c8_amended :
    pyFormatComma0 (1000 * 10 ^ 18 / 10 ^ 18) = "1,000" ∧
    pyPlainDiv (1000 * 10 ^ 18) (10 ^ 18) = "1000.0" ∧
    pyFormatComma2Cents 10000 = "100.00" ∧
    pyPlainDiv 10000 100 = "100.0" :=
  ⟨rfl, rfl, rfl, rfl⟩

/-! ### The interaction orchestrator's exception policy (claims C3, C10)

`run_all_examples` (`interaction_examples.py` lines 327-346) calls
`setup_contracts` outside its `try` block, then runs the five groups inside
it; the `except` clause prints and re-raises, so any exception escaping a
group aborts the remaining groups and propagates.  Within a group, the
read-back at the end of `loan_interactions`, `escrow_interactions`,
`swap_interactions` and `credit_card_interactions` is wrapped in
`try: ... except Exception as e: print(...)` — a handler that catches every
exception, the "not found" case and any other alike; `token_interactions`
has no such handler.  We model a group by which exception (if any) its
body outside the read-back `try` raises and which the read-back raises. -/

/-- Kind of a Python exception for the orchestrator model: the tolerated
"record not found" condition, or any other failure (network error, reverted
transaction, …). -/
inductive PyExc where
  | notFound
  | other
deriving DecidableEq, Repr

/-- Injected behaviour of one interaction group: what its body outside the
read-back `try` raises (if anything), and what the read-back inside the
`try` raises (if anything). -/
structure GroupBeh where
  body : Option PyExc
  readback : Option PyExc
deriving DecidableEq, Repr

/-- What escapes one group, given whether its read-back is guarded by the
`try/except Exception` handler (`true` for the loan, escrow, swap and
credit-card groups; `false` for the token group, which has no handler):
a body exception always escapes; a read-back exception is swallowed by the
guard whatever its kind, since `except Exception` catches everything. -/
def run_group (guard : Bool) (g : GroupBeh) : Option PyExc :=
  match g.body with
  | some e => some e
  | none =>
    match g.readback with
    | some e => if guard then none else some e
    | none => none

/-- Sequential execution of the groups inside the orchestrator's `try`
block: returns how many groups started executing and the exception (if any)
that escaped and aborted the rest.  A group that raises still counts as
started; the groups after it never run. -/
def run_all_groups : List (Bool × GroupBeh) → Nat × Option PyExc
  | [] => (0, none)
  | (guard, g) :: gs =>
    match run_group guard g with
    | some e => (1, some e)
    | none =>
      let r := run_all_groups gs
      (r.1 + 1, r.2)

/-- The guard flags of the five groups in orchestrator order (token, loan,
escrow, swap, credit-card): only the token group lacks the read-back
`try/except`. -/
def group_guards : List Bool := [false, true, true, true, true]

/-- Five groups whose only injected failure is a NON-"not found" exception
raised by the loan group's read-back (`get_loan`), everything else clean. -/
def c3_cex_groups : List (Bool × GroupBeh) :=
  [ (false, ⟨none, none⟩),
    (true, ⟨none, some .other⟩),
    (true, ⟨none, none⟩),
    (true, ⟨none, none⟩),
    (true, ⟨none, none⟩) ]

/-- C3 counterexample: when the loan group's read-back raises an exception
that is NOT the "not found" condition, the orchestrator does not abort — all
five groups still execute and nothing propagates, because the read-back
handler is `except Exception` and swallows every exception kind alike.  This
contradicts the claim that a non-"not-found" read-back exception propagates
and leaves the remaining groups unexecuted. -/
theorem c3_counterexample :
    run_all_groups c3_cex_groups = (5, none) := by
  decide

/-- C3 amended: any exception raised by a guarded per-group read-back —
"not found" or not — is caught by the group's `except Exception` handler and
does not abort the remaining groups; by contrast an exception raised by a
group's body outside the read-back `try` escapes the group and aborts all
remaining groups, leaving them unexecuted. -/
theorem c3_amended (rb : Option PyExc) (e : PyExc) (rb2 : Option PyExc)
    (gs : List (Bool × GroupBeh)) :
    run_group true ⟨none, rb⟩ = none ∧
    run_all_groups ((true, ⟨some e, rb2⟩) :: gs) = (1, some e) := by
  constructor
  · cases rb <;> rfl
  · rfl

/-! ### Script-level control flow (claims C4, C5, C6, C10)

Environment variables are modelled as `Option String` (`os.getenv` returns
`None` when unset); Python's truthiness test `if not x` is false for both
`None` and the empty string, modelled by `falsyOpt`.  File presence is a
boolean parameter.  Stdout is modelled only on the configuration-failure
paths the claims are about (the happy-path reporting is the formatting
functions above); a process that lets an exception escape `asyncio.run`
exits with status 1, a normal return exits with status 0. -/

/-- The environment both scripts read: `NETWORK` (default `'testnet'` is
applied by `os.getenv('NETWORK', 'testnet')` before this record is built),
`ACCOUNT_ADDRESS`, `PRIVATE_KEY`. -/
structure Env where
  network : String
  account_address : Option String
  private_key : Option String
deriving DecidableEq, Repr

/-- Python falsiness of an optional environment string: `not x` is true when
the variable is unset (`None`) or set to the empty string. -/
def falsyOpt : Option String → Bool
  | none => true
  | some s => s = ""

/-- `if not account_address or not private_key` (`deploy_token.py` line 30,
and the same test at `interaction_examples.py` line 358). -/
def creds_missing (env : Env) : Bool :=
  falsyOpt env.account_address || falsyOpt env.private_key

/-- Outcome of running `deploy_token()` to completion of its control flow. -/
inductive DeployOutcome where
  /-- the `raise ValueError(...)` at line 31 escapes uncaught -/
  | raisedValueError
  /-- the `NETWORK_URL[network]` lookup at line 37 raises `KeyError` uncaught -/
  | raisedKeyError
  /-- the contract-class file is missing: the handler at lines 52-54 prints
  and returns normally -/
  | returnedNoArtifact
  /-- the deployment workflow runs -/
  | completed
deriving DecidableEq, Repr

/-- Result of the `deploy_token` coroutine: its outcome, the diagnostics it
prints on failure paths, and the network events it emits. -/
structure DeployRun where
  outcome : DeployOutcome
  printed : List String
  net : List Ev
deriving DecidableEq, Repr

/-- Control flow of `deploy_token` (`deploy_token.py` lines 22-132) in source
order: the credential check (line 30) runs first, then the client
construction with the `NETWORK_URL` lookup (line 37), then the
contract-class file load (lines 49-54), and only then the deployment
transaction and verification queries (lines 59-98).  `artifactExists` is
whether `target/dev/..._HancoinToken.contract_class.json` is present. -/
def deploy_token (env : Env) (artifactExists : Bool) : DeployRun :=
  if creds_missing env then
    { outcome := .raisedValueError, printed := [], net := [] }
  else
    match NETWORK_URL env.network with
    | none => { outcome := .raisedKeyError, printed := [], net := [] }
    | some _ =>
      if artifactExists then
        { outcome := .completed, printed := [],
          net := deploy_net_trace (env.account_address.getD "") }
      else
        { outcome := .returnedNoArtifact,
          printed := ["❌ Contract class file not found. Please run 'scarb build' first."],
          net := [] }

/-- Exit status of `python3 scripts/deploy_token.py`: `asyncio.run` exits 1
when the coroutine raises, 0 when it returns. -/
def deploy_exit_code (env : Env) (artifactExists : Bool) : Nat :=
  match (deploy_token env artifactExists).outcome with
  | .raisedValueError => 1
  | .raisedKeyError => 1
  | _ => 0

/-- The five logical contract names `setup_contracts` resolves, in source
order (`interaction_examples.py` lines 44-67). -/
def contract_keys : List String :=
  ["hancoin_token", "loan_contract", "escrow_contract", "swap_contract",
   "credit_card_simulator"]

/-- `HomebaseInteraction.setup_contracts` (lines 42-69): resolves the listed
address-book keys in order with `Contract.from_address`; an absent key makes
the dictionary access raise `KeyError` (modelled as `none`), so no later key
is resolved. -/
def setup_contracts : List String → (String → Option String) → Option (List Ev)
  | [], _ => some []
  | k :: ks, book =>
    match book k with
    | none => none
    | some _ => (setup_contracts ks book).map (fun t => .resolve k :: t)

/-- Outcome of `HomebaseInteraction.run_all_examples` (lines 327-346). -/
inductive RunAllOutcome where
  /-- `setup_contracts` raised (missing address-book key); it is called
  before the `try` block, so nothing catches it and no group runs -/
  | setupRaised
  /-- the groups ran inside the `try`; `executed` of them started, and `err`
  escaped (the `except` clause prints and re-raises it) -/
  | groupsDone (executed : Nat) (err : Option PyExc)
deriving DecidableEq, Repr

/-- `run_all_examples`: `setup_contracts` first, outside the `try`; then the
five groups in order inside it.  `book` is the address book's `contracts`
mapping, `gs` the injected behaviour of the five groups. -/
def run_all_examples (book : String → Option String) (gs : List (Bool × GroupBeh)) :
    RunAllOutcome :=
  match setup_contracts contract_keys book with
  | none => .setupRaised
  | some _ => .groupsDone (run_all_groups gs).1 (run_all_groups gs).2

/-- Outcome of the interaction script's `main()` (lines 348-363). -/
inductive MainOutcome where
  /-- `deployment_addresses.json` absent: print two diagnostics, return -/
  | returnedMissingAddressBook
  /-- a credential absent: print a diagnostic, return -/
  | returnedMissingEnv
  /-- `HomebaseInteraction` was constructed and `run_all_examples` ran -/
  | ran (r : RunAllOutcome)
deriving DecidableEq, Repr

/-- `main()` of `interaction_examples.py`: the address-book existence check
(line 352) runs first, then the credential check (line 358), and only then
is the session built and `run_all_examples` awaited. -/
def interaction_main (env : Env) (addressBookExists : Bool)
    (book : String → Option String) (gs : List (Bool × GroupBeh)) :
    MainOutcome × List String :=
  if !addressBookExists then
    (.returnedMissingAddressBook,
     ["❌ deployment_addresses.json not found!",
      "Please deploy contracts first using: ./scripts/deploy_all.sh"])
  else if creds_missing env then
    (.returnedMissingEnv, ["❌ ACCOUNT_ADDRESS and PRIVATE_KEY must be set in .env file"])
  else
    (.ran (run_all_examples book gs), [])

/-- Exit status of `python3 scripts/interaction_examples.py`: 1 when an
exception escapes `main` (a setup `KeyError`, or a group error re-raised by
`run_all_examples`), 0 otherwise. -/
def interaction_exit_code (env : Env) (addressBookExists : Bool)
    (book : String → Option String) (gs : List (Bool × GroupBeh)) : Nat :=
  match (interaction_main env addressBookExists book gs).1 with
  | .ran .setupRaised => 1
  | .ran (.groupsDone _ (some _)) => 1
  | _ => 0

/-- The network events `interaction_main` issues before reaching
`run_all_examples`: none — both checks and the session construction perform
no network I/O (the client object is built lazily; the first network call is
the first `Contract.from_address` inside `setup_contracts`). -/
def interaction_pre_run_net : List Ev := []

/-- C4: for every combination of missing credentials — neither set, only
`ACCOUNT_ADDRESS` set, only `PRIVATE_KEY` set — each workflow fails with a
configuration error before issuing any network call: `deploy_token` raises
its `ValueError` with an empty network trace, and the interaction `main`
returns on one of its two configuration checks before any network event. -/
theorem c4_missing_credentials_fail_first (env : Env) (artifactExists abExists : Bool)
    (book : String → Option String) (gs : List (Bool × GroupBeh))
    (h : creds_missing env = true) :
    (deploy_token env artifactExists).outcome = .raisedValueError ∧
    (deploy_token env artifactExists).net = [] ∧
    ((interaction_main env abExists book gs).1 = .returnedMissingAddressBook ∨
     (interaction_main env abExists book gs).1 = .returnedMissingEnv) ∧
    interaction_pre_run_net = [] := by
  refine ⟨by simp [deploy_token, h], by simp [deploy_token, h], ?_, rfl⟩
  cases abExists
  · exact Or.inl (by simp [interaction_main])
  · exact Or.inr (by simp [interaction_main, h])

/-- C4 witness: with `ACCOUNT_ADDRESS` set and `PRIVATE_KEY` unset (one of
the three combinations), the deploy script raises before any network event
and the interaction script returns on a configuration check. -/
theorem c4_witness :
    creds_missing ⟨"testnet", some "0xabc", none⟩ = true ∧
    (deploy_token ⟨"testnet", some "0xabc", none⟩ true).outcome = .raisedValueError ∧
    (deploy_token ⟨"testnet", some "0xabc", none⟩ true).net = [] ∧
    ((interaction_main ⟨"testnet", some "0xabc", none⟩ true (fun _ => none) []).1 =
       .returnedMissingAddressBook ∨
     (interaction_main ⟨"testnet", some "0xabc", none⟩ true (fun _ => none) []).1 =
       .returnedMissingEnv) := by
  have h := c4_missing_credentials_fail_first ⟨"testnet", some "0xabc", none⟩ true true
    (fun _ => none) [] (by decide)
  exact ⟨by decide, h.1, h.2.1, h.2.2.1⟩

/-- C5, evaluated on the code: when `deployment_addresses.json` is absent the
interaction script does not crash uncontrolled — `main` prints the guidance
to run the deployment step first and returns — but the process then exits
with status 0, not the non-zero status the claim requires. -/
theorem c5_missing_address_book_exits_zero (env : Env)
    (book : String → Option String) (gs : List (Bool × GroupBeh)) :
    (interaction_main env false book gs).1 = .returnedMissingAddressBook ∧
    "Please deploy contracts first using: ./scripts/deploy_all.sh" ∈
      (interaction_main env false book gs).2 ∧
    interaction_exit_code env false book gs = 0 := by
  refine ⟨rfl, ?_, rfl⟩
  simp [interaction_main]

/-- C6 counterexample: with `PRIVATE_KEY` missing, the deploy script does not
print a diagnostic and return — the `ValueError` at
`deploy_token.py` line 31 escapes past the top level and the process exits
with status 1, not 0. -/
theorem c6_counterexample :
    (deploy_token ⟨"testnet", some "0xabc", none⟩ true).outcome = .raisedValueError ∧
    (deploy_token ⟨"testnet", some "0xabc", none⟩ true).printed = [] ∧
    deploy_exit_code ⟨"testnet", some "0xabc", none⟩ true = 1 := by
  decide

/-- C6 amended: on a missing required file each script prints an explicit
diagnostic and returns without raising (exit status 0): the deploy script on
a missing contract-class artifact, the interaction script on a missing
address book.  On missing environment variables the interaction script
likewise prints a diagnostic and returns with status 0, but the deploy
script instead raises a `ValueError` past the top level and exits with
status 1, printing no diagnostic. -/
theorem c6_amended (env envOk : Env) (book : String → Option String)
    (gs : List (Bool × GroupBeh)) (u : String)
    (hmiss : creds_missing env = true) (hok : creds_missing envOk = false)
    (hnet : NETWORK_URL envOk.network = some u) :
    (deploy_token envOk false).outcome = .returnedNoArtifact ∧
    (deploy_token envOk false).printed =
      ["❌ Contract class file not found. Please run 'scarb build' first."] ∧
    deploy_exit_code envOk false = 0 ∧
    (interaction_main env false book gs).1 = .returnedMissingAddressBook ∧
    interaction_exit_code env false book gs = 0 ∧
    (interaction_main env true book gs).1 = .returnedMissingEnv ∧
    (interaction_main env true book gs).2 =
      ["❌ ACCOUNT_ADDRESS and PRIVATE_KEY must be set in .env file"] ∧
    interaction_exit_code env true book gs = 0 ∧
    (deploy_token env true).outcome = .raisedValueError ∧
    (deploy_token env true).printed = [] ∧
    deploy_exit_code env true = 1 := by
  refine ⟨?_, ?_, ?_, rfl, rfl, ?_, ?_, ?_, ?_, ?_, ?_⟩ <;>
    simp [deploy_token, deploy_exit_code, interaction_main, interaction_exit_code,
      hmiss, hok, hnet]

/-- C6 amended, witnessed at concrete environments: credentials missing
(`PRIVATE_KEY` unset) versus complete credentials on `testnet`. -/
theorem c6_amended_witness :
    (deploy_token ⟨"testnet", some "0xabc", some "0x1"⟩ false).outcome =
      .returnedNoArtifact ∧
    deploy_exit_code ⟨"testnet", some "0xabc", some "0x1"⟩ false = 0 ∧
    (deploy_token ⟨"testnet", some "0xabc", none⟩ true).outcome = .raisedValueError ∧
    deploy_exit_code ⟨"testnet", some "0xabc", none⟩ true = 1 := by
  have h := c6_amended ⟨"testnet", some "0xabc", none⟩ ⟨"testnet", some "0xabc", some "0x1"⟩
    (fun _ => none) [] "https://alpha4.starknet.io" (by decide) (by decide) (by decide)
  exact ⟨h.1, h.2.2.1, h.2.2.2.2.2.2.2.2.1, h.2.2.2.2.2.2.2.2.2.2⟩

/-! ### Claim C10: all bindings resolve before any group runs -/

/-- Whether an event is a contract-binding resolution. -/
def isResolve : Ev → Bool
  | .resolve _ => true
  | _ => false

/-- The concatenated network events of the five interaction groups in
orchestrator order (`run_all_examples` lines 335-339). -/
def groups_net_trace (owner tokenAddr : String) (usdt : Nat) : List Ev :=
  token_interactions owner ++ loan_interactions ++ escrow_interactions ++
  swap_interactions tokenAddr usdt ++ credit_card_interactions

/-- The full network trace of the interaction workflow's happy path: the
`setup_contracts` resolutions followed by the five groups; `none` when a
contract key is missing from the address book (the `KeyError` case, where no
group event is ever emitted). -/
def interaction_full_trace (book : String → Option String) (owner : String)
    (usdt : Nat) : Option (List Ev) :=
  (setup_contracts contract_keys book).map
    (fun s => s ++ groups_net_trace owner ((book "hancoin_token").getD "") usdt)

/-- When every key is present, `setup_contracts` emits exactly one resolve
event per key, in key order. -/
theorem setup_contracts_all_present (ks : List String) (book : String → Option String)
    (h : ∀ k ∈ ks, (book k).isSome) :
    setup_contracts ks book = some (ks.map Ev.resolve) := by
  induction ks with
  | nil => rfl
  | cons k ks ih =>
    obtain ⟨a, ha⟩ := Option.isSome_iff_exists.mp (h k (by simp))
    simp [setup_contracts, ha, ih (fun k2 hk2 => h k2 (by simp [hk2]))]

/-- A key absent from the address book makes `setup_contracts` raise. -/
theorem setup_contracts_missing_key (ks : List String) (book : String → Option String)
    (k : String) (hk : k ∈ ks) (hnone : book k = none) :
    setup_contracts ks book = none := by
  induction ks with
  | nil => cases hk
  | cons k2 ks ih =>
    rcases List.mem_cons.mp hk with h | h
    · subst h
      simp [setup_contracts, hnone]
    · cases hbk : book k2 <;> simp [setup_contracts, hbk, ih h]

/-- No group emits a binding-resolution event: the five groups only query,
invoke and wait. -/
theorem groups_no_resolve (owner tokenAddr : String) (usdt : Nat) :
    (groups_net_trace owner tokenAddr usdt).all (fun e => !(isResolve e)) = true := by
  by_cases h : usdt = 0 <;>
    simp [groups_net_trace, token_interactions, loan_interactions, escrow_interactions,
      swap_interactions, credit_card_interactions, isResolve, h]

/-- C10: when the address book has all five contract keys, the interaction
trace is exactly the five binding resolutions (one per logical name, in
source order) followed by the group events, none of which is a resolution —
so every binding is resolved before any interaction group executes; and when
any one of the five keys is absent, the `KeyError` propagates out of
`run_all_examples` uncaught (`setup_contracts` is called before the `try`
block) and zero interaction groups run. -/
theorem c10_setup_before_groups (book : String → Option String) (owner : String)
    (usdt : Nat) (gs : List (Bool × GroupBeh)) :
    ((∀ k ∈ contract_keys, (book k).isSome) →
      interaction_full_trace book owner usdt =
        some (contract_keys.map Ev.resolve ++
          groups_net_trace owner ((book "hancoin_token").getD "") usdt) ∧
      (contract_keys.map Ev.resolve).all isResolve = true ∧
      (contract_keys.map Ev.resolve).length = 5 ∧
      (groups_net_trace owner ((book "hancoin_token").getD "") usdt).all
        (fun e => !(isResolve e)) = true) ∧
    (∀ k ∈ contract_keys, book k = none →
      interaction_full_trace book owner usdt = none ∧
      run_all_examples book gs = .setupRaised) := by
  constructor
  · intro h
    refine ⟨?_, by decide, by decide, groups_no_resolve owner _ usdt⟩
    simp [interaction_full_trace, setup_contracts_all_present contract_keys book h]
  · intro k hk hnone
    have hset := setup_contracts_missing_key contract_keys book k hk hnone
    exact ⟨by simp [interaction_full_trace, hset], by simp [run_all_examples, hset]⟩

/-- Address book holding all five contract keys, for the C10 witness. -/
def sample_book : String → Option String :=
  fun k => if k ∈ contract_keys then some "0x1" else none

/-- C10, witnessed at concrete address books: with all five keys present the
trace is the five resolutions followed by the groups; with the empty book
(`loan_contract` unresolvable) `run_all_examples` raises and no group runs. -/
theorem c10_witness :
    interaction_full_trace sample_book "0xowner" 1 =
      some (contract_keys.map Ev.resolve ++
        groups_net_trace "0xowner" ((sample_book "hancoin_token").getD "") 1) ∧
    run_all_examples (fun _ => none) [] = .setupRaised := by
  have h1 := (c10_setup_before_groups sample_book "0xowner" 1 []).1 (by decide)
  have h2 := (c10_setup_before_groups (fun _ => none) "0xowner" 1 []).2
    "loan_contract" (by decide) rfl
  exact ⟨h1.1, h2.2⟩

end Hancoin
